import Mathlib

/-!
Shallow embedding of the signup-code lifecycle and status-transition engine
of the MUT Environmental Health WIL backend (src/server.js).

Relational tables are lists of row records; each HTTP handler becomes a
function from the database state (plus the request fields and the ambient
inputs it reads: current date, random codes, email-transport outcome) to the
new database state paired with an abstract response.  A handler that runs in
a transaction and rolls back on error returns the original state on the
error paths, mirroring connection.rollback().
-/

/-- Row of `signup_codes` (inserted at src/server.js:2052, read at 201, 2120). -/
structure SignupCodeRow where
  application_id : Nat
  code : String
  first_names : String
  surname : String
  student_number : String
  level_of_study : String
  email : String
deriving DecidableEq, Repr

/-- Row of `staff_codes` (src/server.js:497, 513). -/
structure StaffCodeRow where
  code : String
  staff_name : String
  staff_email : String
deriving DecidableEq, Repr

/-- Row of `student_users`.  The signup insert (src/server.js:217) sets only
email, title, password; `status` is read and written by the student-status
endpoints (src/server.js:3849, 3905). -/
structure StudentUserRow where
  email : String
  title : String
  password : String
  status : String
deriving DecidableEq, Repr

/-- Row of `users` (src/server.js:223). -/
structure UserRow where
  email : String
  title : String
  password : String
deriving DecidableEq, Repr

/-- Row of `daily_logsheet` as used by the status engine (src/server.js:3864):
only `student_number` and `log_date` are read.  Dates are modelled as integer
day numbers, so that DATEDIFF(a, b) is a - b. -/
structure LogsheetRow where
  student_number : String
  log_date : Int
deriving DecidableEq, Repr

/-- Row of `wil_application` restricted to the columns the modelled handlers
read (src/server.js:2013, 4290). -/
structure ApplicationRow where
  id : Nat
  first_names : String
  surname : String
  email : String
  student_number : String
  level_of_study : String
  status : String
  updated_at : Int
deriving DecidableEq, Repr

/-- Row of `guest_lectures` restricted to the columns read by event
registration (src/server.js:4254). -/
structure LectureRow where
  id : Nat
  register_status : String
  event_date : Int
deriving DecidableEq, Repr

/-- Row of `event_attendance` (src/server.js:4321). -/
structure AttendanceRow where
  event_id : Nat
  student_id : Nat
  attended : Bool
deriving DecidableEq, Repr

/-- The database state: one list per table touched by the modelled handlers.
`blocked_signups` stores just the email column (src/server.js:2184). -/
structure DB where
  signup_codes : List SignupCodeRow
  staff_codes : List StaffCodeRow
  blocked_signups : List String
  student_users : List StudentUserRow
  users : List UserRow
  daily_logsheet : List LogsheetRow
  wil_application : List ApplicationRow
  guest_lectures : List LectureRow
  event_attendance : List AttendanceRow
deriving DecidableEq, Repr

/-- Modelled from the spec: the `student_users` schema is not in src, so the
default value its `status` column takes on the signup INSERT (which names only
email, title, password, src/server.js:217) is unknown; the claims never
depend on it, so it is a fixed constant here. -/
def student_status_default : String := "active"

/-- MySQL insert error surfaced by the handlers.  The only constraint the
modelled tables can violate is the unique email on `student_users` / `users` /
`staff_users` (the JS matches error.code === "ER_DUP_ENTRY",
src/server.js:241).  Modelled from the spec: the unique-email constraint
lives in the schema of tables whose dump is not in src. -/
inductive DBErr where
  | dupEntry
deriving DecidableEq, Repr

/-- INSERT INTO student_users (email, title, password) VALUES (?, ?, ?)
(src/server.js:217), failing with ER_DUP_ENTRY when the email exists. -/
def insert_student_user (email title pw : String) (db : DB) : Except DBErr DB :=
  if db.student_users.any (fun u => u.email == email) then .error .dupEntry
  else .ok { db with
    student_users := db.student_users ++ [⟨email, title, pw, student_status_default⟩] }

/-- INSERT INTO users (email, title, password) VALUES (?, ?, ?)
(src/server.js:223). -/
def insert_user (email title pw : String) (db : DB) : Except DBErr DB :=
  if db.users.any (fun u => u.email == email) then .error .dupEntry
  else .ok { db with users := db.users ++ [⟨email, title, pw⟩] }

/-- DELETE FROM signup_codes WHERE code = ? (src/server.js:229). -/
def delete_signup_code (code : String) (db : DB) : DB :=
  { db with signup_codes := db.signup_codes.filter (fun r => r.code != code) }

/-- Response of POST /api/student_signup (src/server.js:188-255). -/
inductive SignupRes where
  | codeRequired
  | invalidCode
  | dupEmail
  | created (email title : String)
deriving DecidableEq, Repr

/-- HTTP status the handler attaches to each response
(src/server.js:192, 209, 233, 242). -/
def signupHttpStatus : SignupRes → Nat
  | .codeRequired => 400
  | .invalidCode => 400
  | .dupEmail => 400
  | .created _ _ => 201

/-- POST /api/student_signup (src/server.js:188-255).  The whole body runs in
one transaction: look up the code, hash the password, insert into
`student_users` and `users`, delete the code, commit; any error rolls back,
so the error paths return the original state.  `hash` abstracts
bcrypt.hash(password, 10). -/
def student_signup (hash : String → String) (email title password code : String)
    (db : DB) : DB × SignupRes :=
  if code = "" then (db, .codeRequired)
  else
    match db.signup_codes.find? (fun r => r.code == code) with
    | none => (db, .invalidCode)
    | some _ =>
      let hashedPassword := hash password
      match insert_student_user email title hashedPassword db with
      | .error .dupEntry => (db, .dupEmail)
      | .ok db1 =>
        match insert_user email title hashedPassword db1 with
        | .error .dupEntry => (db, .dupEmail)
        | .ok db2 => (delete_signup_code code db2, .created email title)

/-- Response of POST /api/validate-signup-code (src/server.js:2102-2168). -/
inductive ValidateRes where
  | codeRequired
  | invalidCode
  | blockedEmail
  | valid
deriving DecidableEq, Repr

/-- POST /api/validate-signup-code (src/server.js:2102-2168): a single SELECT
joining `signup_codes` with a blocked-email lookup correlated on the code
stored email of the code row; no write is executed on any path. -/
def validate_signup_code (code : String) (db : DB) : DB × ValidateRes :=
  if code = "" then (db, .codeRequired)
  else
    match db.signup_codes.find? (fun r => r.code == code) with
    | none => (db, .invalidCode)
    | some codeEntry =>
      if db.blocked_signups.contains codeEntry.email then (db, .blockedEmail)
      else (db, .valid)

/-- Response of POST /api/block-signup-email (src/server.js:2171-2200). -/
inductive BlockRes where
  | emailRequired
  | blockedOk
deriving DecidableEq, Repr

/-- POST /api/block-signup-email (src/server.js:2171-2200): append the email
to `blocked_signups`. -/
def block_signup_email (email : String) (db : DB) : DB × BlockRes :=
  if email = "" then (db, .emailRequired)
  else ({ db with blocked_signups := db.blocked_signups ++ [email] }, .blockedOk)

/-- Response of PUT /api/update-status/:id (src/server.js:1993-2099). -/
inductive UpdateStatusRes where
  | invalidStatus
  | notFound
  | dbError
  | ok (newStatus : String) (code : Option String)
deriving DecidableEq, Repr

/-- HTTP status attached to each update-status response
(src/server.js:2001, 2022, 2080, 2091). -/
def updateStatusHttpStatus : UpdateStatusRes → Nat
  | .invalidStatus => 400
  | .notFound => 404
  | .dbError => 500
  | .ok _ _ => 200

/-- PUT /api/update-status/:id (src/server.js:1993-2099).  One transaction:
fetch the application, update its status and updated_at, and on "Accepted"
insert a signup code and call sendAcceptanceEmail (src/server.js:2068) —
still inside the transaction, before COMMIT.  sendAcceptanceEmail rethrows on
transport failure (src/server.js:1962), as does sendRejectionEmail
(src/server.js:1984), and the catch block rolls the transaction back
(src/server.js:2089), so a failed send returns the original state with a 500.
`newCode` abstracts generateRandomCode(); `emailOk` abstracts whether
transporter.sendMail succeeds; `now` abstracts NOW(). -/
def update_status (id : Nat) (status : String) (newCode : String)
    (emailOk : Bool) (now : Int) (db : DB) : DB × UpdateStatusRes :=
  if ¬ (status = "Pending" ∨ status = "Accepted" ∨ status = "Rejected") then
    (db, .invalidStatus)
  else
    match db.wil_application.find? (fun a => a.id == id) with
    | none => (db, .notFound)
    | some appData =>
      let apps := db.wil_application.map
        (fun a => if a.id == id then { a with status := status, updated_at := now } else a)
      let db1 := { db with wil_application := apps }
      if status = "Accepted" then
        let db2 := { db1 with signup_codes := db1.signup_codes ++
          [⟨id, newCode, appData.first_names, appData.surname,
            appData.student_number, appData.level_of_study, appData.email⟩] }
        if emailOk then (db2, .ok status (some newCode)) else (db, .dbError)
      else if status = "Rejected" then
        if emailOk then (db1, .ok status none) else (db, .dbError)
      else (db1, .ok status none)

/-- Character class [^\s@] of the staff-email regex (src/server.js:481). -/
def emailChunkOk (cs : List Char) : Bool :=
  !cs.isEmpty && cs.all (fun c => !c.isWhitespace && c != '@')

/-- The staff-email format test emailRegex.test(staff_email) with
emailRegex = /^[^\s@]+@[^\s@]+\.[^\s@]+$/ (src/server.js:481-482): a
nonempty whitespace-free at-sign-free local part, one at-sign, and an
at-sign-free whitespace-free domain containing a dot that is neither its
first nor its last character (the dot of the pattern; the class [^\s@]
itself allows dots on either side). -/
def emailFormatOk (s : String) : Bool :=
  let cs := s.toList
  let localPart := cs.takeWhile (fun c => c != '@')
  match cs.dropWhile (fun c => c != '@') with
  | [] => false
  | _ :: domain =>
    emailChunkOk localPart && emailChunkOk domain &&
      ((domain.drop 1).dropLast.contains '.')

/-- The bounded uniqueness loop of POST /api/staff_codes
(src/server.js:490-503): regenerate while the code collides and fewer than
`fuel` attempts have been made; `i` is the attempt counter, `gen` the random
generator (one fresh draw per attempt), `taken` the collision check against
`staff_codes`. -/
def genLoop (gen : Nat → String) (taken : String → Bool) : Nat → Nat → Option String
  | _, 0 => none
  | i, fuel + 1 => if taken (gen i) then genLoop gen taken (i + 1) fuel else some (gen i)

/-- Response of POST /api/staff_codes (src/server.js:468-547). -/
inductive StaffCodeRes where
  | inputRequired
  | invalidEmail
  | genFailed
  | created (code : String)
  | createdEmailFailed (code : String)
deriving DecidableEq, Repr

/-- HTTP status attached to each staff-code response
(src/server.js:474, 483, 506, 521, 533). -/
def staffCodeHttpStatus : StaffCodeRes → Nat
  | .inputRequired => 400
  | .invalidEmail => 400
  | .genFailed => 500
  | .created _ => 201
  | .createdEmailFailed _ => 201

/-- POST /api/staff_codes (src/server.js:468-547): validate the inputs, run
the uniqueness loop (max 5 attempts), fail with 500 when no unique code was
found, otherwise insert the code (plain pool query, no transaction) and send
the email; a send failure is caught by the message check at
src/server.js:532 and still answers 201 with the code, the insert kept. -/
def post_staff_codes (staff_name staff_email : String) (gen : Nat → String)
    (emailOk : Bool) (db : DB) : DB × StaffCodeRes :=
  if staff_name = "" ∨ staff_email = "" then (db, .inputRequired)
  else if ¬ emailFormatOk staff_email then (db, .invalidEmail)
  else
    match genLoop gen (fun c => db.staff_codes.any (fun r => r.code == c)) 0 5 with
    | none => (db, .genFailed)
    | some code =>
      let db1 := { db with staff_codes := db.staff_codes ++ [⟨code, staff_name, staff_email⟩] }
      if emailOk then (db1, .created code) else (db1, .createdEmailFailed code)

/-- The SQL pattern of email LIKE with studentNumber followed by @% used by every student-status
endpoint (src/server.js:3600, 3850, 3906): the email starts with the student
number followed by an at-sign. -/
def studentMatches (sn : String) (u : StudentUserRow) : Bool :=
  (sn ++ "@").toList.isPrefixOf u.email.toList

/-- SELECT MAX(log_date) FROM daily_logsheet WHERE student_number = ?
(src/server.js:3864-3869); none when the student has no logsheet row. -/
def maxLogDate (sn : String) (db : DB) : Option Int :=
  ((db.daily_logsheet.filter (fun r => r.student_number == sn)).map
    (fun r => r.log_date)).max?

/-- The status the activity rule computes (src/server.js:3879-3901): inactive
with no logsheet; otherwise active iff DATEDIFF(CURDATE(), last) =
today - last is at most 10.  Both branches of the source assign newStatus, so
the computed value does not depend on the current status. -/
def activityTarget (last : Option Int) (today : Int) : String :=
  match last with
  | none => "inactive"
  | some d => if today - d ≤ 10 then "active" else "inactive"

/-- Response of POST /api/update-student-status/:student_number
(src/server.js:3843-3942). -/
inductive UpdateStudentRes where
  | notFound
  | ok (status_changed : Bool) (data : Option StudentUserRow) (days_since : Option Int)
deriving DecidableEq, Repr

/-- POST /api/update-student-status/:student_number (src/server.js:3843-3942):
look the student up by the email LIKE pattern, compute the activity target
from the latest log date, UPDATE the status only when it differs from the
current one, and reply with status_changed, the re-selected row and the day
distance (null without logsheet).  All queries go through the pool; the
error path is unreachable in the model, so no rollback is modelled. -/
def update_student_status (sn : String) (today : Int) (db : DB) : DB × UpdateStudentRes :=
  match db.student_users.find? (studentMatches sn) with
  | none => (db, .notFound)
  | some stu =>
    let last := maxLogDate sn db
    let newStatus := activityTarget last today
    let days := last.map (fun d => today - d)
    if newStatus = stu.status then
      (db, .ok false (db.student_users.find? (studentMatches sn)) days)
    else
      let stus := db.student_users.map
        (fun u => if studentMatches sn u then { u with status := newStatus } else u)
      let db1 := { db with student_users := stus }
      (db1, .ok true (db1.student_users.find? (studentMatches sn)) days)

/-- Response of POST /api/suspend-student/:student_number
(src/server.js:3594-3645). -/
inductive SuspendRes where
  | notFound
  | ok (data : Option StudentUserRow)
deriving DecidableEq, Repr

/-- POST /api/suspend-student/:student_number (src/server.js:3594-3645):
set the status of every matching row to `suspended` and return the re-selected
row.  sendSuspensionEmail swallows errors of the transport (src/server.js:3545), so
the email leg never changes the outcome. -/
def suspend_student (sn : String) (db : DB) : DB × SuspendRes :=
  match db.student_users.find? (studentMatches sn) with
  | none => (db, .notFound)
  | some _ =>
    let stus := db.student_users.map
      (fun u => if studentMatches sn u then { u with status := "suspended" } else u)
    let db1 := { db with student_users := stus }
    (db1, .ok (db1.student_users.find? (studentMatches sn)))

/-- String comparison of the WHERE status = `accepted` lookup
(src/server.js:4290): `wil_application` is declared with the
utf8mb4_general_ci collation (src/wil_application.sql:57), so the SQL
equality is case-insensitive — `accepted` matches the `Accepted` written by
update-status. -/
def sqlEqCI (a b : String) : Bool :=
  a.toList.map Char.toLower == b.toList.map Char.toLower

/-- Response of POST /api/lectures/register (src/server.js:4242-4338). -/
inductive RegisterRes where
  | missingInput
  | eventNotFound
  | regNotActive
  | pastEvent
  | notEligible
  | maxReached
  | registered
deriving DecidableEq, Repr

/-- HTTP status attached to each registration response
(src/server.js:4246, 4260, 4269, 4282, 4295, 4314, 4327). -/
def registerHttpStatus : RegisterRes → Nat
  | .missingInput => 400
  | .eventNotFound => 404
  | .regNotActive => 403
  | .pastEvent => 403
  | .notEligible => 403
  | .maxReached => 403
  | .registered => 201

/-- Number of existing event_attendance rows for (event, wil-application id)
(src/server.js:4304-4311). -/
def registrationCount (event_id wilAppId : Nat) (db : DB) : Nat :=
  (db.event_attendance.filter
    (fun r => r.event_id == event_id && r.student_id == wilAppId)).length

/-- POST /api/lectures/register (src/server.js:4242-4338): reject falsy ids
(0 / empty string under JS truthiness), require the event to exist with
active registration and a date not strictly before today (date-only compare),
require an accepted wil_application row for the student number, reject when
the registration count is already at least 1, otherwise insert one attendance
row with attended = false. -/
def lectures_register (event_id : Nat) (student_id : String) (today : Int)
    (db : DB) : DB × RegisterRes :=
  if event_id = 0 ∨ student_id = "" then (db, .missingInput)
  else
    match db.guest_lectures.find? (fun e => e.id == event_id) with
    | none => (db, .eventNotFound)
    | some event =>
      if event.register_status ≠ "active" then (db, .regNotActive)
      else if event.event_date < today then (db, .pastEvent)
      else
        match db.wil_application.find?
            (fun a => a.student_number == student_id && sqlEqCI a.status "accepted") with
        | none => (db, .notEligible)
        | some app =>
          if registrationCount event_id app.id db ≥ 1 then (db, .maxReached)
          else
            ({ db with event_attendance :=
                db.event_attendance ++ [⟨event_id, app.id, false⟩] }, .registered)

/-- The empty database, base of the concrete witness states. -/
def emptyDB : DB := ⟨[], [], [], [], [], [], [], [], []⟩

/-- Witness state: one issued signup code, no accounts. -/
def c1db : DB :=
  { emptyDB with signup_codes := [⟨1, "CODE1", "F", "S", "20231", "NDip", "e@x.com"⟩] }

/-- Witness state after the successful redemption of CODE1 from c1db. -/
def c1post : DB :=
  { emptyDB with
    student_users := [⟨"n@x.com", "Mr", "pw", student_status_default⟩],
    users := [⟨"n@x.com", "Mr", "pw"⟩] }

/-- Witness code row for the atomicity claim. -/
def c2row : SignupCodeRow := ⟨2, "CODE2", "F", "S", "20232", "NDip", "f@x.com"⟩

/-- Witness state: an issued code and a `users` row already holding the email
the redemption will submit, so the second insert violates the unique key. -/
def c2db : DB :=
  { emptyDB with signup_codes := [c2row], users := [⟨"old@x.com", "Mr", "h"⟩] }

/-- Counterexample state: a code whose stored email is about to be blocked. -/
def c3db : DB :=
  { emptyDB with signup_codes := [⟨3, "CODE3", "F", "S", "20233", "NDip", "e@x.com"⟩] }

/-- Failing-input state for the notification claim: one Pending application. -/
def c4db : DB :=
  { emptyDB with wil_application := [⟨1, "John", "Doe", "j@x.com", "123", "NDip", "Pending", 0⟩] }

/-- Witness student row for the activity-threshold claims. -/
def c5stu : StudentUserRow := ⟨"S1@live.mut.ac.za", "Ms", "pw", "suspended"⟩

/-- Witness state: one student with latest log_date 10. -/
def c5db : DB :=
  { emptyDB with
    student_users := [c5stu],
    daily_logsheet := [⟨"S1", 5⟩, ⟨"S1", 10⟩] }

/-- Witness state: every code the first five generator draws produce is taken. -/
def c6db : DB :=
  { emptyDB with staff_codes := [⟨"A0", "X", "x@y.z"⟩, ⟨"A1", "X", "x@y.z"⟩,
      ⟨"A2", "X", "x@y.z"⟩, ⟨"A3", "X", "x@y.z"⟩, ⟨"A4", "X", "x@y.z"⟩] }

/-- Witness generator: draw number i yields "A" ++ i. -/
def c6gen (i : Nat) : String := "A" ++ toString i

/-- Witness state: one student whose only log is 7 days before the test date. -/
def c7db : DB :=
  { emptyDB with
    student_users := [⟨"S3@live.mut.ac.za", "Mr", "pw", "inactive"⟩],
    daily_logsheet := [⟨"S3", 13⟩] }

/-- Witness event row for the registration-cap claim. -/
def c8event : LectureRow := ⟨2, "active", 50⟩

/-- Witness application row for the registration-cap claim; its status was
written by update-status as `Accepted` and matches the lowercase query under
the case-insensitive collation. -/
def c8app : ApplicationRow := ⟨7, "J", "D", "j@x.com", "123", "NDip", "Accepted", 0⟩

/-- Witness state: active future event, accepted applicant, no registration. -/
def c8db : DB :=
  { emptyDB with guest_lectures := [c8event], wil_application := [c8app] }

/-- Witness code row for the read-only-validation claim. -/
def c9row : SignupCodeRow := ⟨9, "CODE9", "F", "S", "20239", "NDip", "v@x.com"⟩

/-- Witness state: one issued code, nothing blocked. -/
def c9db : DB := { emptyDB with signup_codes := [c9row] }

/-- Witness state: an active student with a recent log, about to be
suspended by admin action. -/
def c10db : DB :=
  { emptyDB with
    student_users := [⟨"S2@live.mut.ac.za", "Mr", "pw", "active"⟩],
    daily_logsheet := [⟨"S2", 15⟩] }

/-- A filter that drops every row with the given code leaves nothing for a
find? on that code. -/
theorem find?_code_filter_none (l : List SignupCodeRow) (code : String) :
    (l.filter (fun r => r.code != code)).find? (fun r => r.code == code) = none := by
  rw [List.find?_eq_none]
  intro x hx
  have hmem := List.mem_filter.mp hx
  simpa using hmem.2

/-- find? commutes with a map that preserves the predicate. -/
theorem find?_map_pres {α : Type} (g : α → α) (p : α → Bool)
    (hp : ∀ u, p (g u) = p u) (l : List α) :
    (l.map g).find? p = (l.find? p).map g := by
  induction l with
  | nil => rfl
  | cons a t ih =>
    simp only [List.map_cons, List.find?, hp a]
    cases h : p a
    · simpa [h] using ih
    · simp [h]

/-- C1: after one successful redemption of a code via POST /api/student_signup
(which deletes the signup_codes row and commits), any later redemption attempt
presenting the same code fails with the 400 invalid-code branch and changes no
state, so no account rows are created. -/
theorem signup_code_single_use (hash hash2 : String → String)
    (email title password email2 title2 password2 code : String) (db db1 : DB)
    (h : student_signup hash email title password code db = (db1, .created email title)) :
    student_signup hash2 email2 title2 password2 code db1 = (db1, .invalidCode) ∧
    signupHttpStatus .invalidCode = 400 := by
  unfold student_signup at h
  by_cases hc : code = ""
  · simp [hc] at h
  · simp only [if_neg hc] at h
    cases hfind : db.signup_codes.find? (fun r => r.code == code) with
    | none => rw [hfind] at h; simp at h
    | some row =>
      rw [hfind] at h
      unfold insert_student_user at h
      by_cases h1 : db.student_users.any (fun u => u.email == email) = true
      · simp [h1] at h
      · simp only [Bool.not_eq_true] at h1
        simp only [h1, Bool.false_eq_true, if_false] at h
        unfold insert_user at h
        by_cases h2 : db.users.any (fun u => u.email == email) = true
        · simp [h2] at h
        · simp only [Bool.not_eq_true] at h2
          simp only [h2, Bool.false_eq_true, if_false] at h
          have hdb1 : db1 = delete_signup_code code
              { { db with student_users := db.student_users ++
                    [StudentUserRow.mk email title (hash password) student_status_default] } with
                  users := db.users ++ [UserRow.mk email title (hash password)] } := by
            have := congrArg Prod.fst h
            simp at this
            exact this.symm
          constructor
          · have hnone : db1.signup_codes.find? (fun r => r.code == code) = none := by
              rw [hdb1]
              exact find?_code_filter_none _ code
            simp [student_signup, if_neg hc, hnone]
          · rfl

/-- Witness for C1 at a concrete state: CODE1 is redeemed once successfully,
and the repeat attempt returns invalid-code and leaves the state unchanged. -/
theorem signup_code_single_use_witness :
    student_signup (fun p => p) "n@x.com" "Mr" "pw" "CODE1" c1db =
      (c1post, .created "n@x.com" "Mr") ∧
    student_signup (fun p => p) "m@y.com" "Ms" "pw2" "CODE1" c1post =
      (c1post, .invalidCode) := by
  refine ⟨by decide, ?_⟩
  exact (signup_code_single_use (fun p => p) (fun p => p) "n@x.com" "Mr" "pw"
    "m@y.com" "Ms" "pw2" "CODE1" c1db c1post (by decide)).1

/-- C2: redeeming an existing code either persists all three writes together
(student_users insert, users insert with the same hash, signup_codes delete)
or — when an insert hits the duplicate-email unique constraint — rolls back,
so the state is unchanged, the code row still exists and stays redeemable. -/
theorem student_signup_atomicity (hash : String → String)
    (email title password code : String) (db : DB) (row : SignupCodeRow)
    (hc : code ≠ "")
    (hfind : db.signup_codes.find? (fun r => r.code == code) = some row) :
    ((db.student_users.any (fun u => u.email == email) = true ∨
      db.users.any (fun u => u.email == email) = true) →
      student_signup hash email title password code db = (db, .dupEmail) ∧
      db.signup_codes.find? (fun r => r.code == code) = some row) ∧
    ((db.student_users.any (fun u => u.email == email) = false ∧
      db.users.any (fun u => u.email == email) = false) →
      student_signup hash email title password code db =
        ({ db with
            student_users := db.student_users ++
              [StudentUserRow.mk email title (hash password) student_status_default],
            users := db.users ++ [UserRow.mk email title (hash password)],
            signup_codes := db.signup_codes.filter (fun r => r.code != code) },
          .created email title)) := by
  constructor
  · intro hdup
    refine ⟨?_, hfind⟩
    rcases hdup with h1 | h2
    · simp [student_signup, if_neg hc, hfind, insert_student_user, h1]
    · by_cases h1 : db.student_users.any (fun u => u.email == email) = true
      · simp [student_signup, if_neg hc, hfind, insert_student_user, h1]
      · simp only [Bool.not_eq_true] at h1
        simp [student_signup, if_neg hc, hfind, insert_student_user, insert_user, h1, h2]
  · rintro ⟨h1, h2⟩
    simp [student_signup, if_neg hc, hfind, insert_student_user, insert_user,
      delete_signup_code, h1, h2]

/-- Witness for C2 at a concrete state: the email already exists in `users`,
so the redemption answers duplicate-email, the state is untouched and the
code row is still found. -/
theorem student_signup_atomicity_witness :
    student_signup (fun p => p) "old@x.com" "Ms" "pw" "CODE2" c2db = (c2db, .dupEmail) ∧
    c2db.signup_codes.find? (fun r => r.code == "CODE2") = some c2row := by
  exact (student_signup_atomicity (fun p => p) "old@x.com" "Ms" "pw" "CODE2" c2db c2row
    (by decide) (by decide)).1 (Or.inr (by decide))

/-- C3 counterexample: block-signup-email is called for the stored email of
CODE3, yet a direct redemption of CODE3 via POST /api/student_signup still
succeeds — it creates both account rows and consumes the code, because that
handler never consults blocked_signups (src/server.js:188-255 contains no
query against it; only validate-signup-code checks it, src/server.js:2122). -/
theorem blocked_email_redemption_counterexample :
    (block_signup_email "e@x.com" c3db).1.blocked_signups = ["e@x.com"] ∧
    (student_signup (fun p => p) "n@x.com" "Mr" "pw" "CODE3"
      (block_signup_email "e@x.com" c3db).1).2 = .created "n@x.com" "Mr" ∧
    (student_signup (fun p => p) "n@x.com" "Mr" "pw" "CODE3"
      (block_signup_email "e@x.com" c3db).1).1.signup_codes = [] ∧
    (student_signup (fun p => p) "n@x.com" "Mr" "pw" "CODE3"
      (block_signup_email "e@x.com" c3db).1).1.student_users ≠ [] := by
  refine ⟨by decide, by decide, by decide, by decide⟩

/-- C3 amended: once block-signup-email has recorded an email, validation via
POST /api/validate-signup-code of any code whose stored email equals it fails
with the blocked message and consumes nothing, for as long as the blocked row
persists; direct redemption via POST /api/student_signup, however, does not
consult blocked_signups and can still succeed. -/
theorem blocked_email_blocks_validation (e : String) (db : DB) (he : e ≠ "") :
    (block_signup_email e db).1.blocked_signups.contains e = true ∧
    (∀ (db2 : DB) (c : String) (row : SignupCodeRow), c ≠ "" →
      db2.blocked_signups.contains e = true →
      db2.signup_codes.find? (fun r => r.code == c) = some row →
      row.email = e →
      validate_signup_code c db2 = (db2, .blockedEmail)) := by
  constructor
  · simp [block_signup_email, he]
  · intro db2 c row hc hbl hfind hem
    simp [validate_signup_code, if_neg hc, hfind, hem, hbl]
    simpa using hbl

/-- Witness for the amended C3 at a concrete state: after blocking e@x.com,
validating CODE3 answers the blocked failure and leaves the state unchanged. -/
theorem blocked_email_blocks_validation_witness :
    validate_signup_code "CODE3" (block_signup_email "e@x.com" c3db).1 =
      ((block_signup_email "e@x.com" c3db).1, .blockedEmail) := by
  exact (blocked_email_blocks_validation "e@x.com" c3db (by decide)).2
    (block_signup_email "e@x.com" c3db).1 "CODE3"
    ⟨3, "CODE3", "F", "S", "20233", "NDip", "e@x.com"⟩
    (by decide) (by decide) (by decide) (by decide)

/-- C4 at its failing input (code_bug): with one Pending application, a PUT
/api/update-status/1 to Accepted whose acceptance email fails to send rolls
the whole transaction back — the status update and the issued signup code are
not persisted and the handler answers 500 — although the thrown message
"Status updated but failed to send email" (src/server.js:1962) and the spec
both say the committed state must survive a notification failure. -/
theorem update_status_email_failure_rolls_back :
    update_status 1 "Accepted" "ZZZZ9999" false 7 c4db = (c4db, .dbError) ∧
    updateStatusHttpStatus .dbError = 500 ∧
    c4db.wil_application.map (fun a => a.status) = ["Pending"] ∧
    (update_status 1 "Accepted" "ZZZZ9999" false 7 c4db).1.signup_codes = [] ∧
    update_status 1 "Accepted" "ZZZZ9999" true 7 c4db ≠ (c4db, .dbError) := by
  refine ⟨by decide, rfl, by decide, by decide, by decide⟩

/-- Core run lemma for POST /api/update-student-status/:student_number: when
the student exists, the call answers ok with the activity target, updates the
first matching row to that target (whether or not it changed) and leaves the
logsheet table untouched. -/
theorem uss_run (sn : String) (today : Int) (db : DB) (stu : StudentUserRow)
    (hfind : db.student_users.find? (studentMatches sn) = some stu) :
    ∃ db1, update_student_status sn today db =
      (db1, .ok (decide (activityTarget (maxLogDate sn db) today ≠ stu.status))
        (some { stu with status := activityTarget (maxLogDate sn db) today })
        ((maxLogDate sn db).map (fun d => today - d))) ∧
      db1.student_users.find? (studentMatches sn) =
        some { stu with status := activityTarget (maxLogDate sn db) today } ∧
      db1.daily_logsheet = db.daily_logsheet := by
  have hstu : studentMatches sn stu = true := List.find?_some hfind
  by_cases h : activityTarget (maxLogDate sn db) today = stu.status
  · refine ⟨db, ?_, ?_, rfl⟩
    · simp [update_student_status, hfind, h]
    · rw [hfind, h]
  · have hmap : (db.student_users.map (fun u =>
        if studentMatches sn u then
          { u with status := activityTarget (maxLogDate sn db) today } else u)).find?
          (studentMatches sn) =
        some { stu with status := activityTarget (maxLogDate sn db) today } := by
      rw [find?_map_pres _ _ ?hp, hfind]
      · simp [hstu]
      case hp =>
        intro u
        by_cases hu : studentMatches sn u = true
        · rw [if_pos hu]
          rfl
        · rw [if_neg hu]
    refine ⟨{ db with student_users := db.student_users.map (fun u =>
        if studentMatches sn u then
          { u with status := activityTarget (maxLogDate sn db) today } else u) },
      ?_, hmap, rfl⟩
    simp [update_student_status, hfind, h, hmap]

/-- C5: for an existing student the endpoint stores exactly the activity
target: inactive with no logsheet, else active iff the day distance from the
latest log date to today is at most 10 (so 10 gives active, 11 inactive),
and it reports the distance and whether the stored status changed. -/
theorem update_student_status_activity_threshold (sn : String) (today : Int)
    (db : DB) (stu : StudentUserRow)
    (hfind : db.student_users.find? (studentMatches sn) = some stu) :
    (update_student_status sn today db).1.student_users.find? (studentMatches sn) =
      some { stu with status :=
        (match maxLogDate sn db with
         | none => "inactive"
         | some d => if today - d ≤ 10 then "active" else "inactive") } ∧
    (update_student_status sn today db).2 =
      .ok (decide (activityTarget (maxLogDate sn db) today ≠ stu.status))
        (some { stu with status := activityTarget (maxLogDate sn db) today })
        ((maxLogDate sn db).map (fun d => today - d)) := by
  obtain ⟨db1, hrun, hf1, -⟩ := uss_run sn today db stu hfind
  constructor
  · rw [hrun]; exact hf1
  · rw [hrun]

/-- Witness for C5 at a concrete state, exercising both sides of the
threshold boundary: latest log 10 days before today computes active, 11 days
computes inactive; the suspended current status is overwritten. -/
theorem update_student_status_activity_threshold_witness :
    c5db.student_users.find? (studentMatches "S1") = some c5stu ∧
    (update_student_status "S1" 20 c5db).1.student_users.find? (studentMatches "S1") =
      some ⟨"S1@live.mut.ac.za", "Ms", "pw", "active"⟩ ∧
    (update_student_status "S1" 21 c5db).1.student_users.find? (studentMatches "S1") =
      some ⟨"S1@live.mut.ac.za", "Ms", "pw", "inactive"⟩ := by
  refine ⟨by decide, ?_, ?_⟩
  · have h := update_student_status_activity_threshold "S1" 20 c5db c5stu (by decide)
    rw [h.1]; decide
  · have h := update_student_status_activity_threshold "S1" 21 c5db c5stu (by decide)
    rw [h.1]; decide

/-- C7: running the status recomputation twice in a row (same date, logsheet
untouched) makes the second call a no-op: it reports status_changed = false
and returns the state of the first call unchanged. -/
theorem update_student_status_idempotent (sn : String) (today : Int) (db : DB)
    (stu : StudentUserRow)
    (hfind : db.student_users.find? (studentMatches sn) = some stu) :
    update_student_status sn today (update_student_status sn today db).1 =
      ((update_student_status sn today db).1,
        .ok false (some { stu with status := activityTarget (maxLogDate sn db) today })
          ((maxLogDate sn db).map (fun d => today - d))) := by
  obtain ⟨db1, hrun, hf1, hlog⟩ := uss_run sn today db stu hfind
  have hmax : maxLogDate sn db1 = maxLogDate sn db := by
    simp [maxLogDate, hlog]
  rw [hrun]
  simp [update_student_status, hf1, hmax]

/-- Witness for C7 at a concrete state: the first call flips the student to
active, the second call answers status_changed = false with the same state. -/
theorem update_student_status_idempotent_witness :
    update_student_status "S3" 20 (update_student_status "S3" 20 c7db).1 =
      ((update_student_status "S3" 20 c7db).1,
        .ok false (some ⟨"S3@live.mut.ac.za", "Mr", "pw", "active"⟩) (some 7)) := by
  have h := update_student_status_idempotent "S3" 20 c7db
    ⟨"S3@live.mut.ac.za", "Mr", "pw", "inactive"⟩ (by decide)
  rw [h]; decide

/-- C10: whenever the latest log date is within 10 days of today, the
recomputation stores active regardless of the current stored status — in
particular it reverts an admin-set suspended or unenrolled status. -/
theorem update_student_status_overrides_admin (sn : String) (today : Int)
    (db : DB) (stu : StudentUserRow) (d : Int)
    (hfind : db.student_users.find? (studentMatches sn) = some stu)
    (hlast : maxLogDate sn db = some d)
    (hrecent : today - d ≤ 10) :
    (update_student_status sn today db).1.student_users.find? (studentMatches sn) =
      some { stu with status := "active" } := by
  obtain ⟨db1, hrun, hf1, -⟩ := uss_run sn today db stu hfind
  have ht : activityTarget (maxLogDate sn db) today = "active" := by
    rw [hlast]; simp [activityTarget, hrecent]
  rw [ht] at hf1
  rw [hrun]
  exact hf1

/-- Witness for C10 at a concrete state: the student is suspended through
POST /api/suspend-student, then one recomputation (log 5 days old) puts the
stored status back to active. -/
theorem update_student_status_overrides_admin_witness :
    (suspend_student "S2" c10db).1.student_users.map (fun u => u.status) =
      ["suspended"] ∧
    (update_student_status "S2" 20 (suspend_student "S2" c10db).1).1.student_users.find?
      (studentMatches "S2") = some ⟨"S2@live.mut.ac.za", "Mr", "pw", "active"⟩ := by
  refine ⟨by decide, ?_⟩
  exact update_student_status_overrides_admin "S2" 20 (suspend_student "S2" c10db).1
    ⟨"S2@live.mut.ac.za", "Mr", "pw", "suspended"⟩ 15 (by decide) (by decide) (by decide)

/-- The uniqueness loop only consults generator draws with index below
i + fuel. -/
theorem genLoop_agree (gen gen2 : Nat → String) (taken : String → Bool) :
    ∀ (fuel i : Nat), (∀ j, i ≤ j → j < i + fuel → gen j = gen2 j) →
      genLoop gen taken i fuel = genLoop gen2 taken i fuel := by
  intro fuel
  induction fuel with
  | zero => intro i _; rfl
  | succ n ih =>
    intro i h
    have hi : gen i = gen2 i := h i le_rfl (by omega)
    simp only [genLoop, hi]
    by_cases ht : taken (gen2 i) = true
    · simp only [ht, if_true]
      exact ih (i + 1) (fun j hj1 hj2 => h j (by omega) (by omega))
    · simp only [Bool.not_eq_true] at ht
      simp [ht]

/-- When every draw in the window collides, the loop gives up. -/
theorem genLoop_none (gen : Nat → String) (taken : String → Bool) :
    ∀ (fuel i : Nat), (∀ j, i ≤ j → j < i + fuel → taken (gen j) = true) →
      genLoop gen taken i fuel = none := by
  intro fuel
  induction fuel with
  | zero => intro i _; rfl
  | succ n ih =>
    intro i h
    have hi : taken (gen i) = true := h i le_rfl (by omega)
    simp only [genLoop, hi, if_true]
    exact ih (i + 1) (fun j hj1 hj2 => h j (by omega) (by omega))

/-- The loop returns the first non-colliding draw in the window. -/
theorem genLoop_first (gen : Nat → String) (taken : String → Bool) :
    ∀ (fuel i k : Nat), i ≤ k → k < i + fuel →
      (∀ j, i ≤ j → j < k → taken (gen j) = true) → taken (gen k) = false →
      genLoop gen taken i fuel = some (gen k) := by
  intro fuel
  induction fuel with
  | zero => intro i k _ hlt _ _; omega
  | succ n ih =>
    intro i k hik hlt hall hk
    by_cases hik2 : i = k
    · subst hik2
      simp [genLoop, hk]
    · have hi : taken (gen i) = true := hall i le_rfl (by omega)
      simp only [genLoop, hi, if_true]
      exact ih (i + 1) k (by omega) (by omega) (fun j hj1 hj2 => hall j (by omega) hj2) hk

/-- C6: for valid staff name and email, POST /api/staff_codes consults the
random generator on draw indices below 5 only; when all five draws collide
with `staff_codes` it answers the 500 generation failure and inserts nothing;
when the first fresh draw is at index k below 5 it appends exactly one row
carrying that code and answers 201 (with or without the email warning). -/
theorem staff_code_bounded_retry (staff_name staff_email : String)
    (gen : Nat → String) (emailOk : Bool) (db : DB)
    (hn : staff_name ≠ "") (he : staff_email ≠ "")
    (hf : emailFormatOk staff_email = true) :
    (∀ gen2 : Nat → String, (∀ i, i < 5 → gen i = gen2 i) →
      post_staff_codes staff_name staff_email gen emailOk db =
        post_staff_codes staff_name staff_email gen2 emailOk db) ∧
    ((∀ i, i < 5 → db.staff_codes.any (fun r => r.code == gen i) = true) →
      post_staff_codes staff_name staff_email gen emailOk db = (db, .genFailed) ∧
      staffCodeHttpStatus .genFailed = 500) ∧
    (∀ k, k < 5 → (∀ j, j < k → db.staff_codes.any (fun r => r.code == gen j) = true) →
      db.staff_codes.any (fun r => r.code == gen k) = false →
      post_staff_codes staff_name staff_email gen emailOk db =
        ({ db with staff_codes := db.staff_codes ++ [⟨gen k, staff_name, staff_email⟩] },
          if emailOk then .created (gen k) else .createdEmailFailed (gen k))) := by
  refine ⟨?_, ?_, ?_⟩
  · intro gen2 hagree
    have hg : genLoop gen (fun c => db.staff_codes.any (fun r => r.code == c)) 0 5 =
        genLoop gen2 (fun c => db.staff_codes.any (fun r => r.code == c)) 0 5 :=
      genLoop_agree gen gen2 _ 5 0 (fun j _ hj2 => hagree j (by omega))
    simp only [post_staff_codes, hg]
  · intro hall
    have hg : genLoop gen (fun c => db.staff_codes.any (fun r => r.code == c)) 0 5 = none :=
      genLoop_none gen _ 5 0 (fun j _ hj2 => hall j (by omega))
    refine ⟨?_, rfl⟩
    simp [post_staff_codes, hn, he, hf, hg]
  · intro k hk hprev hfresh
    have hg : genLoop gen (fun c => db.staff_codes.any (fun r => r.code == c)) 0 5 =
        some (gen k) :=
      genLoop_first gen _ 5 0 k (by omega) (by omega)
        (fun j _ hj2 => hprev j hj2) hfresh
    simp only [post_staff_codes, hn, he, hf, hg]
    cases emailOk <;> simp

/-- Witness for C6 at a concrete state: A0 through A4 are all taken, so the
five attempts are exhausted, the handler answers the 500 failure and the
table is unchanged; on the empty table the first draw A0 is inserted. -/
theorem staff_code_bounded_retry_witness :
    post_staff_codes "Alice" "a@b.c" c6gen true c6db = (c6db, .genFailed) ∧
    post_staff_codes "Alice" "a@b.c" c6gen true emptyDB =
      ({ emptyDB with staff_codes := [⟨"A0", "Alice", "a@b.c"⟩] },
        .created "A0") := by
  constructor
  · exact ((staff_code_bounded_retry "Alice" "a@b.c" c6gen true c6db
      (by decide) (by decide) (by decide)).2.1
      (by intro i hi; interval_cases i <;> decide)).1
  · exact (staff_code_bounded_retry "Alice" "a@b.c" c6gen true emptyDB
      (by decide) (by decide) (by decide)).2.2 0 (by omega)
      (by intro j hj; omega) (by decide)

/-- C9: validation is read-only — the state component of
POST /api/validate-signup-code is always the input state, and a code that
exists with an unblocked stored email answers valid, on this and hence on
every repetition. -/
theorem validate_signup_code_readonly (code : String) (db : DB) :
    (validate_signup_code code db).1 = db ∧
    (∀ row, code ≠ "" →
      db.signup_codes.find? (fun r => r.code == code) = some row →
      db.blocked_signups.contains row.email = false →
      validate_signup_code code db = (db, .valid)) := by
  constructor
  · by_cases hc : code = ""
    · simp [validate_signup_code, hc]
    · simp only [validate_signup_code, if_neg hc]
      cases hfind : db.signup_codes.find? (fun r => r.code == code) with
      | none => rfl
      | some row => split <;> first | rfl | (split <;> rfl)
  · intro row hc hfind hb
    simp [validate_signup_code, if_neg hc, hfind, hb]
    simpa using hb

/-- Witness for C9 at a concrete state: validating CODE9 leaves the state
unchanged and answers valid. -/
theorem validate_signup_code_readonly_witness :
    (validate_signup_code "CODE9" c9db).1 = c9db ∧
    validate_signup_code "CODE9" c9db = (c9db, .valid) := by
  have h := validate_signup_code_readonly "CODE9" c9db
  exact ⟨h.1, h.2 c9row (by decide) (by decide) (by decide)⟩

/-- C8: under the eligibility checks (event exists, registration active,
date not past, applicant accepted) the endpoint inserts one attendance row
exactly when the (event, student) pair has zero registrations; with at least
one prior registration it answers 403 and changes nothing, so the resulting
count is one when it was zero and is otherwise left as it was — the endpoint
never raises it above 1. -/
theorem lectures_register_cap (event_id : Nat) (student_id : String)
    (today : Int) (db : DB) (event : LectureRow) (app : ApplicationRow)
    (hid : event_id ≠ 0) (hsid : student_id ≠ "")
    (hev : db.guest_lectures.find? (fun e => e.id == event_id) = some event)
    (hact : event.register_status = "active")
    (hdate : ¬ event.event_date < today)
    (happ : db.wil_application.find?
      (fun a => a.student_number == student_id && sqlEqCI a.status "accepted") =
        some app) :
    (registrationCount event_id app.id db = 0 →
      lectures_register event_id student_id today db =
        ({ db with event_attendance :=
            db.event_attendance ++ [⟨event_id, app.id, false⟩] }, .registered)) ∧
    (1 ≤ registrationCount event_id app.id db →
      lectures_register event_id student_id today db = (db, .maxReached) ∧
      registerHttpStatus .maxReached = 403) ∧
    registrationCount event_id app.id (lectures_register event_id student_id today db).1 =
      (if registrationCount event_id app.id db = 0 then 1
       else registrationCount event_id app.id db) := by
  have hrun : lectures_register event_id student_id today db =
      (if registrationCount event_id app.id db ≥ 1 then (db, .maxReached)
       else ({ db with event_attendance :=
          db.event_attendance ++ [⟨event_id, app.id, false⟩] }, .registered)) := by
    simp [lectures_register, hid, hsid, hev, hact, hdate, happ]
  refine ⟨?_, ?_, ?_⟩
  · intro h0
    rw [hrun, if_neg (by omega)]
  · intro h1
    refine ⟨?_, rfl⟩
    rw [hrun, if_pos h1]
  · by_cases h0 : registrationCount event_id app.id db = 0
    · rw [hrun, if_neg (by omega), if_pos h0]
      simp [registrationCount, List.filter_append]
      simpa [registrationCount, List.length_eq_zero, List.filter_eq_nil_iff] using h0
    · rw [hrun, if_pos (by omega), if_neg h0]

/-- Witness for C8 at a concrete state: with no prior registration the pair
is registered (count becomes 1); with one prior row the request is rejected
with 403 and the state is unchanged. -/
theorem lectures_register_cap_witness :
    lectures_register 2 "123" 50 c8db =
      ({ c8db with event_attendance := [⟨2, 7, false⟩] }, .registered) ∧
    lectures_register 2 "123" 50 { c8db with event_attendance := [⟨2, 7, false⟩] } =
      ({ c8db with event_attendance := [⟨2, 7, false⟩] }, .maxReached) := by
  constructor
  · exact (lectures_register_cap 2 "123" 50 c8db c8event c8app
      (by decide) (by decide) (by decide) (by decide) (by decide) (by decide)).1
      (by decide)
  · exact ((lectures_register_cap 2 "123" 50 { c8db with event_attendance := [⟨2, 7, false⟩] }
      c8event c8app
      (by decide) (by decide) (by decide) (by decide) (by decide) (by decide)).2.1
      (by decide)).1
